import Mathlib

/-!
Verification of the bluffai poker state machine.

Shallow embedding of the bluffai Python sources:
  * `src/bluffai/__init__.py` — `Card`, `Deck`, `ActionType`, `Action`,
    `Player`, `State`, `validate_action_for_state`, `apply_action`;
  * `src/bluffai/types.py` — `Pot` and its construction-time validation;
  * `src/bluffai/states.py` — the phase-state dataclasses `ShuffleDeck`,
    `DealingHoleCards`, `PreFlopBetting`, `Showdown` and their
    `__post_init__` validators.

Python exceptions are modelled by the inductive `PyErr`; a fallible Python
function becomes a Lean function into `Except PyErr _`.  Python `int` is
`Int`, `str` is `String`, lists and tuples are `List`, and a `dict` is an
association list read through `List.lookup`.  A Python `list.index` /
subscript that is guarded by earlier validation checks (so that it cannot
raise on any path that reaches it) is modelled totally with `List.indexOf`
and `List.getD`; the one unguarded `list.index` (in `Showdown`'s pot
validation) is modelled with the fallible `listIndex` so that its
`ValueError` is preserved.
-/

namespace bluffai

/-- The 52 card values of `Card(Enum)` in `src/bluffai/__init__.py`
(identical to the enum in `src/bluffai/types.py`). -/
inductive Card where
  | clubs2 | clubs3 | clubs4 | clubs5 | clubs6 | clubs7 | clubs8
  | clubs9 | clubs10 | clubsJack | clubsQueen | clubsKing | clubsAce
  | diamonds2 | diamonds3 | diamonds4 | diamonds5 | diamonds6 | diamonds7 | diamonds8
  | diamonds9 | diamonds10 | diamondsJack | diamondsQueen | diamondsKing | diamondsAce
  | hearts2 | hearts3 | hearts4 | hearts5 | hearts6 | hearts7 | hearts8
  | hearts9 | hearts10 | heartsJack | heartsQueen | heartsKing | heartsAce
  | spades2 | spades3 | spades4 | spades5 | spades6 | spades7 | spades8
  | spades9 | spades10 | spadesJack | spadesQueen | spadesKing | spadesAce
  deriving DecidableEq, Repr

/-- The Python exceptions the embedded code can raise.  `deckExhausted` is
modelled from the spec: the spec's error taxonomy names a `DeckExhausted`
error for dealing from an empty deck, but no such exception class exists
anywhere in the source; it is included only so that statements about it can
be written down.  `indexError`, `keyError`, `valueError` and
`assertionError` are Python's built-in exceptions (raised by `list.pop` on
an empty list, a missing `dict` key, `list.index` on a missing element, and
a failed `assert`). -/
inductive PyErr where
  | invalidStateError (msg : String)
  | invalidPotError (msg : String)
  | invalidActionError (msg : String)
  | invalidActionForStateError (msg : String)
  | assertionError
  | keyError
  | indexError
  | valueError
  | deckExhausted
  deriving DecidableEq, Repr

/-- `PlayerID = str` in the source. -/
abbrev PlayerID := String

/-- `NumChips = int` in the source. -/
abbrev NumChips := Int

/-- Python `assert x is not None` followed by using `x`: returns the value
or raises `AssertionError`. -/
def assertSome {A : Type} : Option A → Except PyErr A
  | some a => .ok a
  | none => .error .assertionError

/-- Python `d[k]` on a `dict` (modelled as an association list): the value,
or `KeyError` if the key is absent. -/
def dictGet {A : Type} (d : List (PlayerID × A)) (k : PlayerID) : Except PyErr A :=
  match d.lookup k with
  | some v => .ok v
  | none => .error .keyError

/-- Python `xs.index(a)`: the first index of `a`, or `ValueError` if `a` is
not in the list. -/
def listIndex {A : Type} [DecidableEq A] (xs : List A) (a : A) : Except PyErr Nat :=
  if xs.contains a then .ok (xs.indexOf a) else .error .valueError

/-! ### Deck (`src/bluffai/__init__.py`, class `Deck`)

`Deck` owns a `random.Random(random_seed)` generator (`self._random`) and a
card list (`self._cards`).  The CPython generator is outside this
repository; it is modelled from the spec as an arbitrary type `G` of
generator states with a seeding function and a shuffling step that is a
pure function of the generator state and the card list (the spec:
"Fisher–Yates driven by the seeded generator; same seed ⇒ same order").
The seed type `S` abstracts `RandomSeed = int | float | str | bytes |
bytearray | None`. -/

/-- The state of `Deck`: the pseudo-random generator `_random` and the card
list `_cards`. -/
structure Deck (G : Type) where
  rand : G
  cards : List Card
  deriving DecidableEq, Repr

/-- The 52-card list assigned to `self._cards` in `Deck.__init__`, in
source order (clubs, diamonds, hearts, spades; 2 … ace). -/
def initialCards : List Card :=
  [Card.clubs2, Card.clubs3, Card.clubs4, Card.clubs5, Card.clubs6, Card.clubs7,
   Card.clubs8, Card.clubs9, Card.clubs10, Card.clubsJack, Card.clubsQueen,
   Card.clubsKing, Card.clubsAce,
   Card.diamonds2, Card.diamonds3, Card.diamonds4, Card.diamonds5, Card.diamonds6,
   Card.diamonds7, Card.diamonds8, Card.diamonds9, Card.diamonds10, Card.diamondsJack,
   Card.diamondsQueen, Card.diamondsKing, Card.diamondsAce,
   Card.hearts2, Card.hearts3, Card.hearts4, Card.hearts5, Card.hearts6, Card.hearts7,
   Card.hearts8, Card.hearts9, Card.hearts10, Card.heartsJack, Card.heartsQueen,
   Card.heartsKing, Card.heartsAce,
   Card.spades2, Card.spades3, Card.spades4, Card.spades5, Card.spades6, Card.spades7,
   Card.spades8, Card.spades9, Card.spades10, Card.spadesJack, Card.spadesQueen,
   Card.spadesKing, Card.spadesAce]

/-- `Deck.__init__(random_seed)`: seed the generator with `random_seed` and
set `_cards` to the full 52-card list.  `randomNew` models
`random.Random(seed)` (a pure function from the seed to a generator
state). -/
def Deck.new (S G : Type) (randomNew : S → G) (random_seed : S) : Deck G :=
  { rand := randomNew random_seed, cards := initialCards }

/-- `Deck.shuffle(self)`: `self._random.shuffle(self._cards)` permutes the
cards in place and advances the generator.  `shuffleAlg` models the stdlib
`Random.shuffle` as a pure function of the generator state and the list. -/
def Deck.shuffle {G : Type} (shuffleAlg : G → List Card → G × List Card)
    (d : Deck G) : Deck G :=
  { rand := (shuffleAlg d.rand d.cards).1, cards := (shuffleAlg d.rand d.cards).2 }

/-- `n` successive calls of `Deck.shuffle`. -/
def Deck.shuffleN {G : Type} (shuffleAlg : G → List Card → G × List Card) :
    Nat → Deck G → Deck G
  | 0, d => d
  | n + 1, d => Deck.shuffleN shuffleAlg n (Deck.shuffle shuffleAlg d)

/-- `Deck.deal_card(self)`: `return self._cards.pop()`.  Python `list.pop`
removes and returns the LAST element and raises `IndexError` on an empty
list.  There is no emptiness check and no `DeckExhausted` anywhere in the
source. -/
def Deck.deal_card {G : Type} (d : Deck G) : Except PyErr (Card × Deck G) :=
  match d.cards.getLast? with
  | none => .error .indexError
  | some c => .ok (c, { d with cards := d.cards.dropLast })

/-! ### Actions and the flat betting state (`src/bluffai/__init__.py`) -/

/-- `ActionType(Enum)`: the four player action kinds. -/
inductive ActionType where
  | call
  | check
  | fold
  | raiseType
  deriving DecidableEq, Repr

/-- `Action`: `player_id`, `type`, optional `bet` (default `None`). -/
structure Action where
  player_id : PlayerID
  type : ActionType
  bet : Option NumChips := none
  deriving DecidableEq, Repr

/-- Python `repr` of the `bet` payload as interpolated into the
`Action.validate` error messages (`None` or the integer). -/
def betText : Option NumChips → String
  | none => "None"
  | some i => toString i

/-- `Action.validate(self)` (`src/bluffai/__init__.py` lines 333-346): for
`CALL` and `RAISE`, raise `InvalidActionError` when `self.bet is None or
self.bet == 0`.  No other condition is checked (in particular a negative
bet passes). -/
def Action.validate (a : Action) : Except PyErr Unit :=
  if a.type = ActionType.call ∧ (a.bet = none ∨ a.bet = some 0) then
    .error (.invalidActionError
      ("Action with type ActionType.CALL has bet " ++ betText a.bet ++
       ". Actions with type ActionType.CALL must have a positive bet value."))
  else if a.type = ActionType.raiseType ∧ (a.bet = none ∨ a.bet = some 0) then
    .error (.invalidActionError
      ("Action with type ActionType.RAISE has bet " ++ betText a.bet ++
       ". Actions with type ActionType.RAISE must have a positive bet value."))
  else .ok ()

/-- `Player`: id, stack, current bet (default 0), folded flag. -/
structure Player where
  id : PlayerID
  stack : NumChips
  bet : NumChips := 0
  has_folded : Bool := false
  deriving DecidableEq, Repr

/-- `State`: the flat betting-round state of `src/bluffai/__init__.py`,
with its (redundant) player list and per-player dictionaries. -/
structure State where
  players : List Player := []
  player_bets : List (PlayerID × NumChips) := []
  player_stacks : List (PlayerID × NumChips) := []
  player_has_folded : List (PlayerID × Bool) := []
  player_ids : List PlayerID := []
  deriving DecidableEq, Repr

/-- `State.largest_bet`: 0 for an empty player list, otherwise
`max([player.bet for player in self.players])`. -/
def State.largest_bet (s : State) : NumChips :=
  match s.players.map Player.bet with
  | [] => 0
  | b :: bs => bs.foldl max b

/-- `State.player(player_id)`: the first player in `self.players` with the
given id, else `None`. -/
def State.player (s : State) (player_id : PlayerID) : Option Player :=
  s.players.find? (fun p => p.id == player_id)

/-- `validate_action_for_state(state, action)` (`src/bluffai/__init__.py`
lines 471-533), translated check for check in source order.  The source's
three `if action.type == …:` blocks are sequential but mutually exclusive,
so they are rendered as an `if`/`else if` chain.  The `assert action.bet is
not None` statements become `AssertionError` branches, and the
`state.player_stacks[action.player_id]` dict subscript a `KeyError`
branch. -/
def validate_action_for_state (state : State) (action : Action) : Except PyErr Unit :=
  if ¬ state.player_ids.contains action.player_id then
    .error (.invalidActionForStateError
      "Cannot apply an action for a player that is not in the game.")
  else if action.type = ActionType.check ∧ state.largest_bet ≠ 0 then
    .error (.invalidActionForStateError
      ("Cannot apply an action with type ActionType.CHECK when there " ++
       "is an existing bet in the current betting round."))
  else if action.type = ActionType.call then
    if state.largest_bet = 0 then
      .error (.invalidActionForStateError
        ("Cannot apply an action with type ActionType.CALL when there " ++
         "is no existing bet in the current betting round."))
    else
      match action.bet with
      | none => .error .assertionError
      | some bet =>
        match state.player_stacks.lookup action.player_id with
        | none => .error .keyError
        | some stack =>
          if bet > stack then
            .error (.invalidActionForStateError
              ("Cannot apply an action with type ActionType.CALL and a bet " ++
               "that is greater than the stack of chips of the player."))
          else if bet > state.largest_bet then
            .error (.invalidActionForStateError
              ("Cannot apply an action with type ActionType.CALL and a bet " ++
               "that is greater than the largest bet in the current betting round."))
          else if bet < state.largest_bet ∧ bet ≠ stack then
            .error (.invalidActionForStateError
              ("Cannot apply an action with type ActionType.CALL and a bet " ++
               "that is less than the largest bet in the current betting " ++
               "round without going all-in."))
          else .ok ()
  else if action.type = ActionType.raiseType then
    match action.bet with
    | none => .error .assertionError
    | some bet =>
      match state.player_stacks.lookup action.player_id with
      | none => .error .keyError
      | some stack =>
        if bet > stack then
          .error (.invalidActionForStateError
            ("Cannot apply an action with type ActionType.RAISE and a bet " ++
             "that is greater than the stack of chips of the player."))
        else if bet ≤ state.largest_bet then
          .error (.invalidActionForStateError
            ("Cannot apply an action with type ActionType.RAISE and a bet " ++
             "that is less than or equal to the largest bet in the current " ++
             "betting round."))
        else .ok ()
  else .ok ()

/-- In-place mutation of the first player whose `id` matches (Python
mutates the object returned by `State.player`, an alias into
`state.players`). -/
def updateFirst (ps : List Player) (player_id : PlayerID) (f : Player → Player) :
    List Player :=
  match ps with
  | [] => []
  | p :: rest =>
    if p.id = player_id then f p :: rest else p :: updateFirst rest player_id f

/-- `apply_action(state, action)` (`src/bluffai/__init__.py` lines
535-556): FOLD sets the player's `has_folded`, CHECK changes nothing, CALL
and RAISE set the player's `bet`; the `assert`s on the bet payload and on
the player lookup come first in each branch, so the state is untouched when
they fail. -/
def apply_action (state : State) (action : Action) : Except PyErr State :=
  if action.type = ActionType.fold then
    match state.player action.player_id with
    | none => .error .assertionError
    | some _ =>
      .ok { state with
            players := updateFirst state.players action.player_id
              (fun p => { p with has_folded := true }) }
  else if action.type = ActionType.check then
    .ok state
  else if action.type = ActionType.call ∨ action.type = ActionType.raiseType then
    match action.bet with
    | none => .error .assertionError
    | some bet =>
      match state.player action.player_id with
      | none => .error .assertionError
      | some _ =>
        .ok { state with
              players := updateFirst state.players action.player_id
                (fun p => { p with bet := bet }) }
  else .ok state

/-- Modelled from the spec: the transition contract "apply(state, action) →
state' | Error … Validation precedes mutation: if the action fails the
Action Validator the function returns an error and state is unchanged".
The source keeps `validate_action_for_state` and `apply_action` as separate
functions and contains no composed driver under `src/`; this composition
runs the source's validator first and only on success the source's
`apply_action` (whose own assertion failures also precede any mutation, so
an error always returns the untouched input state). -/
def apply_validated (state : State) (action : Action) :
    Except PyErr Unit × State :=
  match validate_action_for_state state action with
  | .error e => (.error e, state)
  | .ok () =>
    match apply_action state action with
    | .error e => (.error e, state)
    | .ok s₂ => (.ok (), s₂)

/-! ### Pot (`src/bluffai/types.py`) and `validate_pot`
(`src/bluffai/validate.py`) -/

/-- `Pot`: a list of contributing player ids and a per-player chip
amount. -/
structure Pot where
  player_ids : List PlayerID
  player_chips : NumChips
  deriving DecidableEq, Repr

/-- `validate_pot(predicate, description)`: raise `InvalidPotError
(description)` when the predicate is false. -/
def validate_pot (b : Bool) (msg : String) : Except PyErr Unit :=
  if b then .ok () else .error (.invalidPotError msg)

/-- `Pot.__post_init__` (`src/bluffai/types.py` lines 98-106): the two
`validate_pot` calls, in source order. -/
def Pot.validate (p : Pot) : Except PyErr Unit := do
  validate_pot (decide (2 ≤ p.player_ids.length))
    "The number of players must be greater than or equal to 2."
  validate_pot (decide (0 < p.player_chips))
    "The number of chips per player must be positive."

/-! ### Phase states (`src/bluffai/states.py`) and `validate_state`
(`src/bluffai/validate.py`)

Each dataclass `__post_init__` becomes a `validate` function running the
same `validate_state` calls in source order; the first false predicate
yields its `InvalidStateError`.  Python's `len(xs) == len(set(xs))` is
rendered as `List.Nodup`, membership `in` as `List.contains`, `xs.index`
guarded by earlier checks as `List.indexOf` with subscripts as
`List.getD`. -/

/-- `validate_state(predicate, description)`: raise `InvalidStateError
(description)` when the predicate is false. -/
def vstate (b : Bool) (msg : String) : Except PyErr Unit :=
  if b then .ok () else .error (.invalidStateError msg)

/-- The `ShuffleDeck` phase state of `src/bluffai/states.py` (fields of
lines 175-180). -/
structure ShuffleDeck where
  player_ids : List PlayerID
  player_stacks : List NumChips
  hand_player_ids : List PlayerID
  little_blind : NumChips
  big_blind : NumChips
  hand_player_bets : List NumChips
  deriving DecidableEq, Repr

/-- `ShuffleDeck.__post_init__` (`src/bluffai/states.py` lines 182-270).
Note the little-blind check of lines 250-256: the source compares
`hand_player_bets[0]` with `self.big_blind` (not `self.little_blind`),
while its message speaks of the little blind. -/
def ShuffleDeck.validate (s : ShuffleDeck) : Except PyErr Unit := do
  vstate (decide (s.player_ids.length ≤ 23))
    "The number of players must be less than or equal to 23."
  vstate (decide s.player_ids.Nodup)
    "Every player must have a unique ID."
  vstate (s.player_stacks.length == s.player_ids.length)
    "Every player must have a stack."
  vstate (s.player_stacks.all (fun player_stack => decide (0 ≤ player_stack)))
    "Every player must have a non-negative stack."
  vstate (decide (2 ≤ s.hand_player_ids.length))
    "The number of players in the the hand must be greater than or equal to 2."
  vstate (s.hand_player_ids.all (fun player_id => s.player_ids.contains player_id))
    "Every player in the hand must be a player in the game."
  vstate (s.hand_player_ids.all (fun player_id =>
      decide (0 < s.player_stacks.getD (s.player_ids.indexOf player_id) 0)))
    "Every player in the hand must have a positive stack."
  vstate (decide (0 < s.little_blind)) "The little blind must be positive."
  vstate (decide (0 < s.big_blind)) "The big blind must be positive."
  vstate (s.hand_player_bets.length == s.hand_player_ids.length)
    "Every player in the hand must have a bet."
  vstate (s.hand_player_bets.all (fun hand_player_bet => decide (0 ≤ hand_player_bet)))
    "Every player in the hand must have a non-negative bet."
  vstate ((s.hand_player_ids.zip s.hand_player_bets).all (fun pb =>
      decide (pb.2 ≤ s.player_stacks.getD (s.player_ids.indexOf pb.1) 0)))
    ("Every player in the hand must have a stack that is greater than or equal " ++
     "to their bet.")
  vstate ((s.hand_player_bets.getD 0 0 == s.big_blind) ||
      (s.hand_player_bets.getD 0 0 ==
        s.player_stacks.getD (s.player_ids.indexOf (s.hand_player_ids.getD 0 "")) 0))
    ("The player in the little blind position must have a bet that is equal to " ++
     "the little blind or be all-in.")
  vstate ((s.hand_player_bets.getD 1 0 == s.big_blind) ||
      (s.hand_player_bets.getD 1 0 ==
        s.player_stacks.getD (s.player_ids.indexOf (s.hand_player_ids.getD 1 "")) 0))
    ("The player in the big blind position must have a bet that is equal to the " ++
     "big blind or be all-in.")
  vstate ((s.hand_player_bets.drop 2).all (fun hand_player_bet => hand_player_bet == 0))
    ("Every player in the hand who is not in the little blind position and is " ++
     "not in the big blind position must have a bet of 0.")

/-- The `DealingHoleCards` phase state of `src/bluffai/states.py` (fields
of lines 283-289). -/
structure DealingHoleCards where
  player_ids : List PlayerID
  player_stacks : List NumChips
  hand_player_ids : List PlayerID
  little_blind : NumChips
  big_blind : NumChips
  hand_player_bets : List NumChips
  deck : List Card
  deriving DecidableEq, Repr

/-- `DealingHoleCards.__post_init__` (`src/bluffai/states.py` lines
291-390): the same checks as `ShuffleDeck` (including the same
`big_blind` comparison for the little-blind position at lines 359-365),
then the deck must hold 52 distinct cards. -/
def DealingHoleCards.validate (s : DealingHoleCards) : Except PyErr Unit := do
  vstate (decide (s.player_ids.length ≤ 23))
    "The number of players must be less than or equal to 23."
  vstate (decide s.player_ids.Nodup)
    "Every player must have a unique ID."
  vstate (s.player_stacks.length == s.player_ids.length)
    "Every player must have a stack."
  vstate (s.player_stacks.all (fun player_stack => decide (0 ≤ player_stack)))
    "Every player must have a non-negative stack."
  vstate (decide (2 ≤ s.hand_player_ids.length))
    "The number of players in the the hand must be greater than or equal to 2."
  vstate (s.hand_player_ids.all (fun player_id => s.player_ids.contains player_id))
    "Every player in the hand must be a player in the game."
  vstate (s.hand_player_ids.all (fun player_id =>
      decide (0 < s.player_stacks.getD (s.player_ids.indexOf player_id) 0)))
    "Every player in the hand must have a positive stack."
  vstate (decide (0 < s.little_blind)) "The little blind must be positive."
  vstate (decide (0 < s.big_blind)) "The big blind must be positive."
  vstate (s.hand_player_bets.length == s.hand_player_ids.length)
    "Every player in the hand must have a bet."
  vstate (s.hand_player_bets.all (fun hand_player_bet => decide (0 ≤ hand_player_bet)))
    "Every player in the hand must have a non-negative bet."
  vstate ((s.hand_player_ids.zip s.hand_player_bets).all (fun pb =>
      decide (pb.2 ≤ s.player_stacks.getD (s.player_ids.indexOf pb.1) 0)))
    ("Every player in the hand must have a stack that is greater than or equal " ++
     "to their bet.")
  vstate ((s.hand_player_bets.getD 0 0 == s.big_blind) ||
      (s.hand_player_bets.getD 0 0 ==
        s.player_stacks.getD (s.player_ids.indexOf (s.hand_player_ids.getD 0 "")) 0))
    ("The player in the little blind position must have a bet that is equal to " ++
     "the little blind or be all-in.")
  vstate ((s.hand_player_bets.getD 1 0 == s.big_blind) ||
      (s.hand_player_bets.getD 1 0 ==
        s.player_stacks.getD (s.player_ids.indexOf (s.hand_player_ids.getD 1 "")) 0))
    ("The player in the big blind position must have a bet that is equal to the " ++
     "big blind or be all-in.")
  vstate ((s.hand_player_bets.drop 2).all (fun hand_player_bet => hand_player_bet == 0))
    ("Every player in the hand who is not in the little blind position and is " ++
     "not in the big blind position must have a bet of 0.")
  vstate (s.deck.length == 52)
    "There must be 52 total cards in the hand."
  vstate (decide s.deck.Nodup)
    "Every card in the hand must be unique."

/-- The `PreFlopBetting` phase state of `src/bluffai/states.py` (fields of
lines 406-414). -/
structure PreFlopBetting where
  player_ids : List PlayerID
  player_stacks : List NumChips
  hand_player_ids : List PlayerID
  little_blind : NumChips
  big_blind : NumChips
  hand_player_bets : List NumChips
  deck : List Card
  hand_player_hole_cards : List (Card × Card)
  hand_player_has_folded : List Bool
  deriving DecidableEq, Repr

/-- The `hand_cards` tuple of `PreFlopBetting.__post_init__`
(`src/bluffai/states.py` lines 484-490): the remaining deck followed by
every dealt hole card. -/
def PreFlopBetting.hand_cards (s : PreFlopBetting) : List Card :=
  s.deck ++ s.hand_player_hole_cards.flatMap (fun hole_cards => [hole_cards.1, hole_cards.2])

/-- `PreFlopBetting.__post_init__` (`src/bluffai/states.py` lines
416-514). -/
def PreFlopBetting.validate (s : PreFlopBetting) : Except PyErr Unit := do
  vstate (decide (s.player_ids.length ≤ 23))
    "The number of players must be less than or equal to 23."
  vstate (decide s.player_ids.Nodup)
    "Every player must have a unique ID."
  vstate (s.player_stacks.length == s.player_ids.length)
    "Every player must have a stack."
  vstate (s.player_stacks.all (fun player_stack => decide (0 ≤ player_stack)))
    "Every player must have a non-negative stack."
  vstate (decide (2 ≤ s.hand_player_ids.length))
    "The number of players in the the hand must be greater than or equal to 2."
  vstate (s.hand_player_ids.all (fun player_id => s.player_ids.contains player_id))
    "Every player in the hand must be a player in the game."
  vstate (s.hand_player_ids.all (fun player_id =>
      decide (0 < s.player_stacks.getD (s.player_ids.indexOf player_id) 0)))
    "Every player in the hand must have a positive stack."
  vstate (decide (0 < s.little_blind)) "The little blind must be positive."
  vstate (decide (0 < s.big_blind)) "The big blind must be positive."
  vstate (s.hand_player_bets.length == s.hand_player_ids.length)
    "Every player in the hand must have a bet."
  vstate (s.hand_player_bets.all (fun hand_player_bet => decide (0 ≤ hand_player_bet)))
    "Every player in the hand must have a non-negative bet."
  vstate ((s.hand_player_ids.zip s.hand_player_bets).all (fun pb =>
      decide (pb.2 ≤ s.player_stacks.getD (s.player_ids.indexOf pb.1) 0)))
    ("Every player in the hand must have a stack that is greater than or equal " ++
     "to their bet.")
  vstate (s.hand_cards.length == 52)
    "There must be 52 total cards in the hand."
  vstate (decide s.hand_cards.Nodup)
    "Every card in the hand must be unique."
  vstate (s.hand_player_hole_cards.length == s.hand_player_ids.length)
    "Every player in the hand must have hole cards."
  vstate (s.hand_player_has_folded.length == s.hand_player_ids.length)
    "Every player in the hand must have folded or not have folded."
  vstate (! s.hand_player_has_folded.all (fun b => b))
    "At least 1 player in the hand must not have folded."

/-- The `Showdown` phase state of `src/bluffai/states.py` (fields of lines
1402-1412). -/
structure Showdown where
  player_ids : List PlayerID
  player_stacks : List NumChips
  hand_player_ids : List PlayerID
  deck : List Card
  hand_player_hole_cards : List (Card × Card)
  hand_player_has_folded : List Bool
  pots : List Pot
  flop_cards : Card × Card × Card
  turn_card : Card
  river_card : Card
  hand_player_has_revealed_hand : List Bool
  deriving DecidableEq, Repr

/-- The `hand_cards` tuple of `Showdown.__post_init__`
(`src/bluffai/states.py` lines 1455-1466): deck, hole cards, flop, turn,
river. -/
def Showdown.hand_cards (s : Showdown) : List Card :=
  s.deck ++ s.hand_player_hole_cards.flatMap (fun hole_cards => [hole_cards.1, hole_cards.2]) ++
    [s.flop_cards.1, s.flop_cards.2.1, s.flop_cards.2.2] ++ [s.turn_card, s.river_card]

/-- The pot predicate of `Showdown.__post_init__` lines 1503-1518:
`all([any([not self.hand_player_has_folded[self.hand_player_ids.index(
player_id)] for player_id in pot.player_ids]) for pot in self.pots])`.
Python evaluates every element of each comprehension before `any`/`all`,
raising `ValueError` from `.index` on a pot player outside
`hand_player_ids`; `List.mapM` reproduces that left-to-right. -/
def Showdown.potNotAllFolded (s : Showdown) : Except PyErr Bool := do
  let pot_flags ← s.pots.mapM (fun pot => do
    let flags ← pot.player_ids.mapM (fun player_id => do
      let i ← listIndex s.hand_player_ids player_id
      pure (! s.hand_player_has_folded.getD i false))
    pure (flags.any (fun b => b)))
  pure (pot_flags.all (fun b => b))

/-- `Showdown.__post_init__` (`src/bluffai/states.py` lines 1414-1536). -/
def Showdown.validate (s : Showdown) : Except PyErr Unit := do
  vstate (decide (s.player_ids.length ≤ 23))
    "The number of players must be less than or equal to 23."
  vstate (decide s.player_ids.Nodup)
    "Every player must have a unique ID."
  vstate (s.player_stacks.length == s.player_ids.length)
    "Every player must have a stack."
  vstate (s.player_stacks.all (fun player_stack => decide (0 ≤ player_stack)))
    "Every player must have a non-negative stack."
  vstate (decide (2 ≤ s.hand_player_ids.length))
    "The number of players in the the hand must be greater than or equal to 2."
  vstate (s.hand_player_ids.all (fun player_id => s.player_ids.contains player_id))
    "Every player in the hand must be a player in the game."
  vstate (s.hand_player_ids.all (fun player_id =>
      decide (0 ≤ s.player_stacks.getD (s.player_ids.indexOf player_id) 0)))
    "Every player in the hand must have a non-negative stack."
  vstate (s.hand_cards.length == 52)
    "There must be 52 total cards in the hand."
  vstate (decide s.hand_cards.Nodup)
    "Every card in the hand must be unique."
  vstate (s.hand_player_hole_cards.length == s.hand_player_ids.length)
    "Every player in the hand must have hole cards."
  vstate (s.hand_player_has_folded.length == s.hand_player_ids.length)
    "Every player in the hand must have folded or not have folded."
  vstate (! s.hand_player_has_folded.all (fun b => b))
    "At least 1 player in the hand must not have folded."
  vstate (s.pots.all (fun pot =>
      pot.player_ids.all (fun player_id => s.player_ids.contains player_id)))
    ("For every pot in the hand, every player in the pot must be a player in " ++
     "the game.")
  let pot_flag ← s.potNotAllFolded
  vstate pot_flag
    "Every pot must have at least one player in the hand who has not folded."
  vstate (s.hand_player_has_revealed_hand.length == s.hand_player_ids.length)
    ("Every player in the hand must have revealed their hand or not have " ++
     "revealed their hand.")
  vstate (! (s.hand_player_has_folded.zip s.hand_player_has_revealed_hand).any
      (fun fr => fr.1 && fr.2))
    "A player cannot have folded and have revealed their hand."

/-! ### Concrete inputs used by the claim theorems and witnesses -/

/-- Equality of `Except` outcomes is decidable (needed to evaluate the
embedded functions on concrete inputs). -/
instance {E A : Type} [DecidableEq E] [DecidableEq A] : DecidableEq (Except E A) :=
  fun x y =>
  match x, y with
  | .ok a, .ok b =>
    if h : a = b then .isTrue (by rw [h]) else .isFalse (fun hh => h (by injection hh))
  | .error e, .error f =>
    if h : e = f then .isTrue (by rw [h]) else .isFalse (fun hh => h (by injection hh))
  | .ok _, .error _ => .isFalse (fun hh => by injection hh)
  | .error _, .ok _ => .isFalse (fun hh => by injection hh)

/-- Scenario A after `PlaceBlinds`: two players with initial stacks
[100, 100], blinds (1, 2), posted bets [1, 2], remaining stacks
[99, 98]. -/
def shuffle_deck_scenario_a : ShuffleDeck :=
  { player_ids := ["p0", "p1"], player_stacks := [99, 98],
    hand_player_ids := ["p0", "p1"], little_blind := 1, big_blind := 2,
    hand_player_bets := [1, 2] }

/-- Scenario A at the `DealingHoleCards` phase, with the full 52-card
deck. -/
def dealing_hole_cards_scenario_a : DealingHoleCards :=
  { player_ids := ["p0", "p1"], player_stacks := [99, 98],
    hand_player_ids := ["p0", "p1"], little_blind := 1, big_blind := 2,
    hand_player_bets := [1, 2], deck := initialCards }

/-- The same hand with BOTH blind positions betting the big blind amount 2
(what the source's comparison actually asks of position 0). -/
def shuffle_deck_both_big : ShuffleDeck :=
  { shuffle_deck_scenario_a with hand_player_bets := [2, 2] }

/-- An empty deck (generator state irrelevant). -/
def deck_empty : Deck Unit := { rand := (), cards := [] }

/-- A two-card deck. -/
def deck_two : Deck Unit := { rand := (), cards := [Card.clubs2, Card.clubs3] }

/-- Scenario B: the round's largest bet is 20 (held by p1); p2 has stack 5
and has not yet bet. -/
def state_scenario_b : State :=
  { players := [{ id := "p1", stack := 100, bet := 20 }, { id := "p2", stack := 5 }],
    player_bets := [("p1", 20), ("p2", 0)],
    player_stacks := [("p1", 100), ("p2", 5)],
    player_has_folded := [("p1", false), ("p2", false)],
    player_ids := ["p1", "p2"] }

/-- Scenario D: the round's largest bet is 5. -/
def state_bet_five : State :=
  { players := [{ id := "p1", stack := 100, bet := 5 }, { id := "p2", stack := 100 }],
    player_bets := [("p1", 5), ("p2", 0)],
    player_stacks := [("p1", 100), ("p2", 100)],
    player_has_folded := [("p1", false), ("p2", false)],
    player_ids := ["p1", "p2"] }

/-- A fresh betting round: every bet is 0. -/
def state_no_bets : State :=
  { players := [{ id := "p1", stack := 100 }, { id := "p2", stack := 100 }],
    player_bets := [("p1", 0), ("p2", 0)],
    player_stacks := [("p1", 100), ("p2", 100)],
    player_has_folded := [("p1", false), ("p2", false)],
    player_ids := ["p1", "p2"] }

/-- A valid pre-flop state: 48 cards in the deck, 4 dealt as hole cards. -/
def pre_flop_good : PreFlopBetting :=
  { player_ids := ["p0", "p1"], player_stacks := [99, 98],
    hand_player_ids := ["p0", "p1"], little_blind := 1, big_blind := 2,
    hand_player_bets := [1, 2],
    deck := initialCards.drop 4,
    hand_player_hole_cards := [(Card.clubs2, Card.clubs3), (Card.clubs4, Card.clubs5)],
    hand_player_has_folded := [false, false] }

/-- A pre-flop candidate with a duplicated hole card (clubs 2 twice, and
clubs 5 neither dealt nor in the deck). -/
def pre_flop_dup : PreFlopBetting :=
  { pre_flop_good with
    hand_player_hole_cards := [(Card.clubs2, Card.clubs2), (Card.clubs3, Card.clubs4)] }

/-- A valid showdown state: 43 cards left in the deck, 4 hole cards, 5
community cards. -/
def showdown_good : Showdown :=
  { player_ids := ["p0", "p1"], player_stacks := [99, 98],
    hand_player_ids := ["p0", "p1"],
    deck := initialCards.drop 9,
    hand_player_hole_cards := [(Card.clubs2, Card.clubs3), (Card.clubs4, Card.clubs5)],
    hand_player_has_folded := [false, false],
    pots := [{ player_ids := ["p0", "p1"], player_chips := 2 }],
    flop_cards := (Card.clubs6, Card.clubs7, Card.clubs8),
    turn_card := Card.clubs9, river_card := Card.clubs10,
    hand_player_has_revealed_hand := [false, false] }

/-- A showdown candidate whose river card duplicates a hole card. -/
def showdown_dup : Showdown := { showdown_good with river_card := Card.clubs2 }

/-- A concrete generator model for exercising the deck theorems: the state
counts shuffles, each shuffle reverses the card list. -/
def shuffle_alg_w : Nat → List Card → Nat × List Card :=
  fun g cards => (g + 1, cards.reverse)

/-- p2 calls 5 (all-in). -/
def action_call_5 : Action := { player_id := "p2", type := .call, bet := some 5 }

/-- p2 calls 10. -/
def action_call_10 : Action := { player_id := "p2", type := .call, bet := some 10 }

/-- p2 checks. -/
def action_check_p2 : Action := { player_id := "p2", type := .check }

/-- p1 raises to 25. -/
def action_raise_25 : Action := { player_id := "p1", type := .raiseType, bet := some 25 }

/-- p2 raises to 10. -/
def action_raise_10 : Action := { player_id := "p2", type := .raiseType, bet := some 10 }

/-- A two-player pot. -/
def pot_pair : Pot := { player_ids := ["p0", "p1"], player_chips := 5 }

/-- A single-contributor pot candidate. -/
def pot_single : Pot := { player_ids := ["p0"], player_chips := 5 }

/-! ### Helper lemmas -/

/-- A bind in `Except` yields `ok` exactly when both stages do. -/
theorem except_bind_ok {E A B : Type} (x : Except E A) (f : A → Except E B) (b : B) :
    (x >>= f) = Except.ok b ↔ ∃ a, x = Except.ok a ∧ f a = Except.ok b := by
  cases x <;> simp [Except.bind, Bind.bind]

/-- A `validate_state` call succeeds exactly when its predicate holds. -/
theorem vstate_eq_ok {b : Bool} {msg : String} {u : Unit} :
    vstate b msg = Except.ok u ↔ b = true := by
  cases b <;> simp [vstate]

/-- Every outcome of a chain of `validate_state` calls is success or an
`InvalidStateError`. -/
def IsOkOrISE (x : Except PyErr Unit) : Prop :=
  x = .ok () ∨ ∃ m, x = .error (.invalidStateError m)

/-- A single `validate_state` call is success or `InvalidStateError`. -/
theorem shape_vstate (b : Bool) (msg : String) : IsOkOrISE (vstate b msg) := by
  cases b
  · exact Or.inr ⟨msg, rfl⟩
  · exact Or.inl rfl

/-- Prefixing a chain with one more `validate_state` call preserves the
success-or-`InvalidStateError` shape. -/
theorem shape_seq {b : Bool} {msg : String} {rest : Except PyErr Unit}
    (h : IsOkOrISE rest) : IsOkOrISE (vstate b msg >>= fun _ => rest) := by
  cases b
  · exact Or.inr ⟨msg, rfl⟩
  · simpa [vstate, Bind.bind, Except.bind] using h

/-- A passing `validate_state` call hands control to the rest of the
chain. -/
theorem seq_true {b : Bool} {msg : String} {B : Type} {rest : Except PyErr B}
    (h : b = true) : (vstate b msg >>= fun _ => rest) = rest := by
  simp [vstate, h, Bind.bind, Except.bind]

/-- A failing `validate_state` call raises its `InvalidStateError` at
once. -/
theorem seq_false {b : Bool} {msg : String} {B : Type} {rest : Except PyErr B}
    (h : b = false) :
    (vstate b msg >>= fun _ => rest) = Except.error (PyErr.invalidStateError msg) := by
  simp [vstate, h, Bind.bind, Except.bind]

/-- `PreFlopBetting.__post_init__` can only succeed or raise
`InvalidStateError`. -/
theorem preflop_shape (s : PreFlopBetting) : IsOkOrISE s.validate := by
  unfold PreFlopBetting.validate
  repeat apply shape_seq
  exact shape_vstate _ _

/-- If `PreFlopBetting` construction succeeds, the deck and hole cards
together are 52 distinct cards. -/
theorem preflop_ok_cards (s : PreFlopBetting) (h : s.validate = .ok ()) :
    s.hand_cards.length = 52 ∧ s.hand_cards.Nodup := by
  simp only [PreFlopBetting.validate, except_bind_ok, vstate_eq_ok] at h
  simp at h
  tauto

/-- A `PreFlopBetting` candidate violating the card invariant raises
`InvalidStateError`. -/
theorem preflop_err_cards (s : PreFlopBetting)
    (h : ¬ (s.hand_cards.length = 52 ∧ s.hand_cards.Nodup)) :
    ∃ m, s.validate = .error (.invalidStateError m) := by
  rcases preflop_shape s with hok | hise
  · exact absurd (preflop_ok_cards s hok) h
  · exact hise

/-- If `Showdown` construction succeeds, the deck, hole cards and the five
community cards together are 52 distinct cards. -/
theorem showdown_ok_cards (s : Showdown) (h : s.validate = .ok ()) :
    s.hand_cards.length = 52 ∧ s.hand_cards.Nodup := by
  simp only [Showdown.validate, except_bind_ok, vstate_eq_ok] at h
  simp at h
  tauto

/-- A `Showdown` candidate violating the card invariant raises
`InvalidStateError` (the card checks precede the pot checks, whose
`list.index` could raise `ValueError` instead). -/
theorem showdown_err_cards (s : Showdown)
    (h : ¬ (s.hand_cards.length = 52 ∧ s.hand_cards.Nodup)) :
    ∃ m, s.validate = .error (.invalidStateError m) := by
  unfold Showdown.validate
  by_cases h1 : (decide (s.player_ids.length ≤ 23)) = true
  case neg => exact ⟨_, seq_false (Bool.not_eq_true _ ▸ h1)⟩
  rw [seq_true h1]
  by_cases h2 : (decide s.player_ids.Nodup) = true
  case neg => exact ⟨_, seq_false (Bool.not_eq_true _ ▸ h2)⟩
  rw [seq_true h2]
  by_cases h3 : (s.player_stacks.length == s.player_ids.length) = true
  case neg => exact ⟨_, seq_false (Bool.not_eq_true _ ▸ h3)⟩
  rw [seq_true h3]
  by_cases h4 : (s.player_stacks.all (fun player_stack => decide (0 ≤ player_stack))) = true
  case neg => exact ⟨_, seq_false (Bool.not_eq_true _ ▸ h4)⟩
  rw [seq_true h4]
  by_cases h5 : (decide (2 ≤ s.hand_player_ids.length)) = true
  case neg => exact ⟨_, seq_false (Bool.not_eq_true _ ▸ h5)⟩
  rw [seq_true h5]
  by_cases h6 : (s.hand_player_ids.all (fun player_id =>
      s.player_ids.contains player_id)) = true
  case neg => exact ⟨_, seq_false (Bool.not_eq_true _ ▸ h6)⟩
  rw [seq_true h6]
  by_cases h7 : (s.hand_player_ids.all (fun player_id =>
      decide (0 ≤ s.player_stacks.getD (s.player_ids.indexOf player_id) 0))) = true
  case neg => exact ⟨_, seq_false (Bool.not_eq_true _ ▸ h7)⟩
  rw [seq_true h7]
  by_cases h8 : (s.hand_cards.length == 52) = true
  case neg => exact ⟨_, seq_false (Bool.not_eq_true _ ▸ h8)⟩
  rw [seq_true h8]
  refine ⟨_, seq_false ?_⟩
  have hlen : s.hand_cards.length = 52 := by simpa using h8
  have hnd : ¬ s.hand_cards.Nodup := fun hn => h ⟨hlen, hn⟩
  simpa using hnd

/-! ### The claims -/

/-- Claim C1 (code evaluation at the failing input): the canonical
post-blind state of Scenario A — blinds (1, 2), posted bets [1, 2],
stacks [99, 98] — is REJECTED by both `ShuffleDeck.__post_init__` and
`DealingHoleCards.__post_init__` with the little-blind
`InvalidStateError`, because the source compares the little-blind
position's bet against `big_blind`; the same hand with bets [2, 2]
validates.  This contradicts the claim (and the validator's own error
message), which require the little-blind bet 1 to be accepted. -/
theorem C1_blind_position_eval :
    ShuffleDeck.validate shuffle_deck_scenario_a =
      .error (.invalidStateError
        ("The player in the little blind position must have a bet that is equal to " ++
         "the little blind or be all-in.")) ∧
    DealingHoleCards.validate dealing_hole_cards_scenario_a =
      .error (.invalidStateError
        ("The player in the little blind position must have a bet that is equal to " ++
         "the little blind or be all-in.")) ∧
    ShuffleDeck.validate shuffle_deck_both_big = .ok () := by
  exact ⟨rfl, rfl, rfl⟩

/-- Claim C2 (counterexample): dealing from a deck with no remaining cards
does NOT fail with the spec's `DeckExhausted` error — the source has no
such error and `list.pop` raises `IndexError`. -/
theorem C2_deal_card_counterexample :
    deck_empty.cards = [] ∧
    Deck.deal_card deck_empty = .error .indexError ∧
    Deck.deal_card deck_empty ≠ .error .deckExhausted := by
  refine ⟨rfl, rfl, fun h => ?_⟩
  simp [Deck.deal_card, deck_empty] at h

/-- Claim C2 (amended): for every deck with no remaining cards,
`Deck.deal_card` fails (with `IndexError`, from popping an empty list);
for every non-empty deck it removes and returns the current top (last)
card, decreasing the deck size by one. -/
theorem C2_deal_card_amended {G : Type} (d : Deck G) :
    (d.cards = [] → Deck.deal_card d = .error .indexError) ∧
    (∀ c, d.cards.getLast? = some c →
      Deck.deal_card d = .ok (c, { d with cards := d.cards.dropLast }) ∧
      d.cards.dropLast.length + 1 = d.cards.length) := by
  constructor
  · intro h
    simp [Deck.deal_card, h]
  · intro c hc
    have hne : d.cards ≠ [] := by
      intro h
      rw [h] at hc
      simp at hc
    refine ⟨by simp [Deck.deal_card, hc], ?_⟩
    have h1 := List.length_dropLast d.cards
    have h2 : 0 < d.cards.length := List.length_pos.mpr hne
    omega

/-- Claim C2 witness: the amended theorem applied to the empty deck and to
a concrete two-card deck. -/
theorem C2_deal_card_amended_witness :
    Deck.deal_card deck_empty = .error .indexError ∧
    Deck.deal_card deck_two = .ok (Card.clubs3, { deck_two with cards := [Card.clubs2] }) :=
  ⟨(C2_deal_card_amended deck_empty).1 rfl,
   ((C2_deal_card_amended deck_two).2 Card.clubs3 rfl).1⟩

/-- Claim C3 (code evaluation at the failing input): `Action.validate`
accepts a NEGATIVE bet for both CALL and RAISE (the source only rejects
`None` and `0`), although the claim — and the function's own error
message, "must have a positive bet value" — demand rejection of every
non-positive bet; missing and zero bets are rejected and a positive bet is
accepted, as claimed. -/
theorem C3_action_validate_eval :
    Action.validate { player_id := "p0", type := .call, bet := some (-1) } = .ok () ∧
    Action.validate { player_id := "p0", type := .raiseType, bet := some (-1) } = .ok () ∧
    Action.validate { player_id := "p0", type := .call, bet := none } =
      .error (.invalidActionError
        ("Action with type ActionType.CALL has bet None. " ++
         "Actions with type ActionType.CALL must have a positive bet value.")) ∧
    Action.validate { player_id := "p0", type := .call, bet := some 0 } =
      .error (.invalidActionError
        ("Action with type ActionType.CALL has bet 0. " ++
         "Actions with type ActionType.CALL must have a positive bet value.")) ∧
    Action.validate { player_id := "p0", type := .raiseType, bet := none } =
      .error (.invalidActionError
        ("Action with type ActionType.RAISE has bet None. " ++
         "Actions with type ActionType.RAISE must have a positive bet value.")) ∧
    Action.validate { player_id := "p0", type := .call, bet := some 3 } = .ok () := by
  exact ⟨rfl, rfl, rfl, rfl, rfl, rfl⟩

/-- Claim C4: for a CALL by a player in the game with bet payload `b` and
stack `stk`, `validate_action_for_state` raises
`InvalidActionForStateError` exactly when the round's largest bet is 0, or
`b` exceeds the stack, or `b` exceeds the largest bet, or `b` is below the
largest bet without being an all-in (`b ≠ stk`); otherwise it raises
nothing. -/
theorem C4_call_legality (s : State) (a : Action) (b stk : NumChips)
    (ht : a.type = ActionType.call)
    (hm : s.player_ids.contains a.player_id = true)
    (hb : a.bet = some b)
    (hs : s.player_stacks.lookup a.player_id = some stk) :
    ((∃ m, validate_action_for_state s a = .error (.invalidActionForStateError m)) ↔
      (s.largest_bet = 0 ∨ stk < b ∨ s.largest_bet < b ∨
        (b < s.largest_bet ∧ b ≠ stk))) ∧
    (validate_action_for_state s a = .ok () ↔
      ¬ (s.largest_bet = 0 ∨ stk < b ∨ s.largest_bet < b ∨
        (b < s.largest_bet ∧ b ≠ stk))) := by
  simp only [validate_action_for_state, hm, ht, hb, hs]
  norm_num
  split_ifs <;> simp_all <;> tauto

/-- Claim C4 witness (Scenario B): facing a largest bet of 20 with stack 5,
calling with bet 5 is legal (all-in call) and calling with bet 10 raises
`InvalidActionForStateError`. -/
theorem C4_call_legality_witness :
    validate_action_for_state state_scenario_b action_call_5 = .ok () ∧
    (∃ m, validate_action_for_state state_scenario_b action_call_10 =
        .error (.invalidActionForStateError m)) :=
  ⟨(C4_call_legality state_scenario_b action_call_5 5 5 rfl rfl rfl rfl).2.mpr
      (by decide),
   (C4_call_legality state_scenario_b action_call_10 10 5 rfl rfl rfl rfl).1.mpr
      (by decide)⟩

/-- Claim C5: a CHECK by a player in the game is rejected with
`InvalidActionForStateError` exactly when the round's largest bet is
nonzero, and accepted when it is 0. -/
theorem C5_check_legality (s : State) (a : Action)
    (ht : a.type = ActionType.check)
    (hm : s.player_ids.contains a.player_id = true) :
    (validate_action_for_state s a = .ok () ↔ s.largest_bet = 0) ∧
    ((∃ m, validate_action_for_state s a = .error (.invalidActionForStateError m)) ↔
      s.largest_bet ≠ 0) := by
  simp only [validate_action_for_state, hm, ht]
  norm_num
  split_ifs <;> simp_all <;> tauto

/-- Claim C5 witness (Scenario D): a CHECK against a largest bet of 5
raises `InvalidActionForStateError`; the same CHECK against a fresh round
(largest bet 0) raises nothing. -/
theorem C5_check_legality_witness :
    (∃ m, validate_action_for_state state_bet_five action_check_p2 =
        .error (.invalidActionForStateError m)) ∧
    validate_action_for_state state_no_bets action_check_p2 = .ok () :=
  ⟨(C5_check_legality state_bet_five action_check_p2 rfl rfl).2.mpr (by decide),
   (C5_check_legality state_no_bets action_check_p2 rfl rfl).1.mpr (by decide)⟩

/-- Claim C6: a RAISE by a player in the game with bet payload `b` and
stack `stk` is rejected with `InvalidActionForStateError` exactly when `b`
exceeds the stack or `b` is not strictly greater than the round's largest
bet; otherwise it raises nothing. -/
theorem C6_raise_legality (s : State) (a : Action) (b stk : NumChips)
    (ht : a.type = ActionType.raiseType)
    (hm : s.player_ids.contains a.player_id = true)
    (hb : a.bet = some b)
    (hs : s.player_stacks.lookup a.player_id = some stk) :
    ((∃ m, validate_action_for_state s a = .error (.invalidActionForStateError m)) ↔
      (stk < b ∨ b ≤ s.largest_bet)) ∧
    (validate_action_for_state s a = .ok () ↔ ¬ (stk < b ∨ b ≤ s.largest_bet)) := by
  simp only [validate_action_for_state, hm, ht, hb, hs]
  norm_num
  split_ifs <;> simp_all <;> tauto

/-- Claim C6 witness: in Scenario B's state, p1 (stack 100) raising to 25
over the largest bet 20 is legal; p2 (stack 5) raising to 10 raises
`InvalidActionForStateError`. -/
theorem C6_raise_legality_witness :
    validate_action_for_state state_scenario_b action_raise_25 = .ok () ∧
    (∃ m, validate_action_for_state state_scenario_b action_raise_10 =
        .error (.invalidActionForStateError m)) :=
  ⟨(C6_raise_legality state_scenario_b action_raise_25 25 100 rfl rfl rfl rfl).2.mpr
      (by decide),
   (C6_raise_legality state_scenario_b action_raise_10 10 5 rfl rfl rfl rfl).1.mpr
      (by decide)⟩

/-- Claim C7: for the card-carrying phase states (`PreFlopBetting`,
`Showdown`), construction succeeds only if the remaining deck, all dealt
hole cards and the revealed community cards together number exactly 52 and
are pairwise distinct; any candidate violating this raises
`InvalidStateError` at construction. -/
theorem C7_card_uniqueness (s : PreFlopBetting) (t : Showdown) :
    (s.validate = .ok () → s.hand_cards.length = 52 ∧ s.hand_cards.Nodup) ∧
    (¬ (s.hand_cards.length = 52 ∧ s.hand_cards.Nodup) →
      ∃ m, s.validate = .error (.invalidStateError m)) ∧
    (t.validate = .ok () → t.hand_cards.length = 52 ∧ t.hand_cards.Nodup) ∧
    (¬ (t.hand_cards.length = 52 ∧ t.hand_cards.Nodup) →
      ∃ m, t.validate = .error (.invalidStateError m)) :=
  ⟨preflop_ok_cards s, preflop_err_cards s, showdown_ok_cards t, showdown_err_cards t⟩

/-- Claim C7 witness: valid pre-flop and showdown states indeed carry 52
distinct cards, and candidates with a duplicated card raise
`InvalidStateError`. -/
theorem C7_card_uniqueness_witness :
    (pre_flop_good.hand_cards.length = 52 ∧ pre_flop_good.hand_cards.Nodup) ∧
    (∃ m, pre_flop_dup.validate = .error (.invalidStateError m)) ∧
    (showdown_good.hand_cards.length = 52 ∧ showdown_good.hand_cards.Nodup) ∧
    (∃ m, showdown_dup.validate = .error (.invalidStateError m)) :=
  ⟨(C7_card_uniqueness pre_flop_good showdown_good).1 (by decide),
   (C7_card_uniqueness pre_flop_dup showdown_good).2.1 (by decide),
   (C7_card_uniqueness pre_flop_good showdown_good).2.2.1 (by decide),
   (C7_card_uniqueness pre_flop_good showdown_dup).2.2.2 (by decide)⟩

/-- Claim C8: a rejected action leaves the state wholly unchanged, and
running the same rejected action against the same state again yields the
same `InvalidActionForStateError` with the state again unchanged. -/
theorem C8_idempotent_rejection (s : State) (a : Action) (m : String) (s₂ : State)
    (h : apply_validated s a = (.error (.invalidActionForStateError m), s₂)) :
    s₂ = s ∧ apply_validated s a = (.error (.invalidActionForStateError m), s) := by
  unfold apply_validated at h ⊢
  cases hv : validate_action_for_state s a with
  | error e =>
    simp only [hv, Prod.mk.injEq] at h ⊢
    obtain ⟨he, hs2⟩ := h
    subst hs2
    exact ⟨rfl, he, trivial⟩
  | ok u =>
    cases u
    simp only [hv] at h ⊢
    cases ha : apply_action s a with
    | error e =>
      simp only [ha, Prod.mk.injEq] at h ⊢
      obtain ⟨he, hs2⟩ := h
      subst hs2
      exact ⟨rfl, he, trivial⟩
    | ok s₃ =>
      simp only [ha, Prod.mk.injEq] at h
      exact absurd h.1 (by simp)

/-- Claim C8 witness: checking into a largest bet of 5 is rejected and the
state comes back unchanged. -/
theorem C8_idempotent_rejection_witness :
    state_bet_five = state_bet_five ∧
    apply_validated state_bet_five action_check_p2 =
      (.error (.invalidActionForStateError
        ("Cannot apply an action with type ActionType.CHECK when there " ++
         "is an existing bet in the current betting round.")), state_bet_five) :=
  C8_idempotent_rejection state_bet_five _ _ state_bet_five rfl

/-- Claim C9: two decks constructed with the same seed and shuffled the
same number of times hold their cards in the same order (and start from
the same 52-card list); this holds for EVERY deterministic model of the
seeded stdlib generator, i.e. for every seed type, generator-state type,
seeding function and shuffle step. -/
theorem C9_shuffle_deterministic (S G : Type) (randomNew : S → G)
    (shuffleAlg : G → List Card → G × List Card)
    (random_seed : S) (n : Nat) (d₁ d₂ : Deck G)
    (h₁ : d₁ = Deck.new S G randomNew random_seed)
    (h₂ : d₂ = Deck.new S G randomNew random_seed) :
    (Deck.shuffleN shuffleAlg n d₁).cards = (Deck.shuffleN shuffleAlg n d₂).cards ∧
    d₁.cards.length = 52 := by
  subst h₁ h₂
  exact ⟨rfl, rfl⟩

/-- Claim C9 witness: a concrete generator model (counter state, reversing
shuffle), seed 7, three shuffles. -/
theorem C9_shuffle_deterministic_witness :
    (Deck.shuffleN shuffle_alg_w 3 (Deck.new Nat Nat id 7)).cards =
      (Deck.shuffleN shuffle_alg_w 3 (Deck.new Nat Nat id 7)).cards ∧
    (Deck.new Nat Nat id 7).cards.length = 52 :=
  C9_shuffle_deterministic Nat Nat id shuffle_alg_w 7 3 _ _ rfl rfl

/-- Claim C10: constructing a `Pot` succeeds exactly when it has at least
2 contributing player ids and a strictly positive per-player chip amount,
and otherwise raises `InvalidPotError` — so a single-contributor pot never
exists as a value. -/
theorem C10_pot_validation (p : Pot) :
    (Pot.validate p = .ok () ↔ (2 ≤ p.player_ids.length ∧ 0 < p.player_chips)) ∧
    (¬ (2 ≤ p.player_ids.length ∧ 0 < p.player_chips) →
      ∃ m, Pot.validate p = .error (.invalidPotError m)) := by
  unfold Pot.validate
  by_cases h1 : 2 ≤ p.player_ids.length <;> by_cases h2 : 0 < p.player_chips <;>
    simp [validate_pot, h1, h2, Bind.bind, Except.bind]

/-- Claim C10 witness: a two-player pot with 5 chips per player validates;
a single-contributor pot raises `InvalidPotError`. -/
theorem C10_pot_validation_witness :
    Pot.validate pot_pair = .ok () ∧
    (∃ m, Pot.validate pot_single = .error (.invalidPotError m)) :=
  ⟨(C10_pot_validation pot_pair).1.mpr (by decide),
   (C10_pot_validation pot_single).2 (by decide)⟩

end bluffai
